import Mathlib

/-!
Verification of the VC Mini Valve Controller serial driver
(`vc_mini_valve_controller/__init__.py`).

The driver is a thin stateful client: a `Microvalve` session object holding a
serial transport, a receive buffer of characters, and `current_address`, the
bus address (0 = valve, 8 = master) that will receive the next command.

Shallow embedding used here:
* Replies from the device are not inspected by any operation for state
  purposes (the `command` primitive returns the raw reply string, which the
  callers discard; `get_address` parses it but stores nothing), so an
  operation is modelled by its effect on `current_address` together with the
  list of command strings it writes to the transport.  Each entry of that
  `tx` list corresponds to exactly one `command(...)` call in the source,
  i.e. exactly one transport write followed by exactly one blocking
  `read_line`.
* Python exceptions (`raise`, failed `assert`) become an `Except String Unit`
  result; an exception aborts the operation but keeps whatever state change
  and transmissions already happened, exactly as in Python.
* `addr_sets` is a ghost field recording, in order, the addresses assigned to
  `current_address` by `set_address` (the only place the source assigns it
  after construction); it lets us state the spec's "most recently selected
  via the addressing command" invariant.
* `read_line` works on characters: the buffer is a `List Char` and the
  transport delivers a finite sequence of chunks (`List (List Char)`); an
  exhausted chunk list models the transport never delivering more bytes, in
  which case the Python loop would block, here `none`.
* `reset` consumes whole lines (each produced by one `read_line` call); it is
  modelled on a finite list of incoming lines, `none` meaning the banner
  never arrives and the Python loop never returns.
-/

namespace VcMini

def ADDRESS_VALVE : Int := 0

def ADDRESS_MASTER : Int := 8

/-- Equality of exception outcomes is decidable (needed so that concrete
runs of the model can be checked by `decide`). -/
def exceptDecEq : DecidableEq (Except String Unit) := fun x y =>
  match x, y with
  | .ok (), .ok () => isTrue rfl
  | .error a, .error b =>
    if h : a = b then isTrue (by rw [h])
    else isFalse (fun hc => by injection hc; contradiction)
  | .ok _, .error _ => isFalse (fun hc => Except.noConfusion hc)
  | .error _, .ok _ => isFalse (fun hc => Except.noConfusion hc)

instance : DecidableEq (Except String Unit) := exceptDecEq

/-- Result of running one operation of the session: the Python exception
outcome, the final `current_address`, the command strings written (one
transport write + one blocking `read_line` each), and the ghost record of
addresses assigned via `set_address`. -/
structure OpResult where
  result : Except String Unit
  current_address : Int
  tx : List String
  addr_sets : List Int
deriving Repr, DecidableEq

/-- Sequencing with Python exception semantics: if `r` raised, the
continuation never runs; otherwise its transmissions are appended. -/
def andThen (r : OpResult) (f : Int → OpResult) : OpResult :=
  match r.result with
  | .error e => ⟨.error e, r.current_address, r.tx, r.addr_sets⟩
  | .ok _ =>
    let r2 := f r.current_address
    ⟨r2.result, r2.current_address, r.tx ++ r2.tx, r.addr_sets ++ r2.addr_sets⟩

/-- Model of `self.command(cmd)`: one write of `cmd` followed by one blocking
`read_line`; the reply is returned to the caller but never affects session
state, so only the transmission is recorded. -/
def emit (st : Int) (cmd : String) : OpResult :=
  ⟨.ok (), st, [cmd], []⟩

/-- Model of `set_address` (source lines 59-64): validate `0 <= address <= 8` before
anything is sent, then transmit `f'{address}*'` and assign
`current_address = address`. -/
def set_address (st : Int) (address : Int) : OpResult :=
  if address < 0 ∨ address > 8 then
    ⟨.error "Address out of range", st, [], []⟩
  else
    ⟨.ok (), address, [toString address ++ "*"], [address]⟩

/-- The two-line ensure-addressed preamble that every address-scoped method
inlines: `if not self.current_address == target: self.set_address(target)`. -/
def ensure_address (st : Int) (target : Int) : OpResult :=
  if st = target then ⟨.ok (), st, [], []⟩ else set_address st target

/-- An address-scoped method body: ensure the address, then emit one command. -/
def addressed_command (st : Int) (target : Int) (cmd : String) : OpResult :=
  andThen (ensure_address st target) (fun st2 => emit st2 cmd)

/-- Model of `get_address` (source lines 66-67): `return int(self.command('='))`;
no ensure-addressed step, no assignment to `current_address`.  The `int(...)`
parse of the reply is outside this model (replies are not modelled). -/
def get_address (st : Int) : OpResult :=
  emit st "="

/-- Model of `set_plc_standard_mode` (source lines 69-73). -/
def set_plc_standard_mode (st : Int) : OpResult :=
  addressed_command st ADDRESS_MASTER "00F"

/-- Model of `set_plc_last_state_restore_mode` (source lines 75-79). -/
def set_plc_last_state_restore_mode (st : Int) : OpResult :=
  addressed_command st ADDRESS_MASTER "01F"

/-- Model of `set_baud_rate` (source lines 89-106): first the ensure-addressed
preamble for the master address, then the baud-rate dispatch; an unsupported
rate raises only after that preamble has run. -/
def set_baud_rate (st : Int) (baud_rate : Int) : OpResult :=
  andThen (ensure_address st ADDRESS_MASTER) (fun st2 =>
    if baud_rate = 9600 then emit st2 "0%"
    else if baud_rate = 19200 then emit st2 "1%"
    else if baud_rate = 38400 then emit st2 "2%"
    else if baud_rate = 57600 then emit st2 "3%"
    else if baud_rate = 115200 then emit st2 "4%"
    else if baud_rate = 230400 then emit st2 "5%"
    else ⟨.error "Cannot set specified baud rate", st2, [], []⟩)

/-- Model of `set_shot_trigger_mode` (source lines 108-115). -/
def set_shot_trigger_mode (st : Int) : OpResult :=
  addressed_command st ADDRESS_VALVE "X"

/-- Model of `set_continuous_trigger_mode` (source lines 117-123). -/
def set_continuous_trigger_mode (st : Int) : OpResult :=
  addressed_command st ADDRESS_VALVE "T"

/-- Model of `set_series_trigger_mode` (source lines 125-133). -/
def set_series_trigger_mode (st : Int) : OpResult :=
  addressed_command st ADDRESS_VALVE "P"

/-- Model of `set_endless_trigger_mode` (source lines 135-142). -/
def set_endless_trigger_mode (st : Int) : OpResult :=
  addressed_command st ADDRESS_VALVE "L"

/-- Model of `stop_triggering` (source lines 144-148). -/
def stop_triggering (st : Int) : OpResult :=
  addressed_command st ADDRESS_VALVE "S"

/-- Model of `single_shot` (source lines 150-160). -/
def single_shot (st : Int) (v1 v2 : Bool) : OpResult :=
  andThen (ensure_address st ADDRESS_VALVE) (fun st2 =>
    if v1 && v2 then emit st2 "V"
    else if v1 then emit st2 "Y"
    else emit st2 "Z")

/-- Model of `series_shot` (source lines 162-172). -/
def series_shot (st : Int) (v1 v2 : Bool) : OpResult :=
  andThen (ensure_address st ADDRESS_VALVE) (fun st2 =>
    if v1 && v2 then emit st2 "U"
    else if v1 then emit st2 "Q"
    else emit st2 "R")

/-- Model of `series_shot_stop` (source lines 174-178). -/
def series_shot_stop (st : Int) : OpResult :=
  addressed_command st ADDRESS_VALVE "S"

/-- Model of `load_parameters` (source lines 180-190): assert `valve in {0,1}`, assert
`0 <= set_index <= 3`, then ensure valve address and emit `f'{set_index}n'`
or `f'{set_index + 4}n'`. -/
def load_parameters (st : Int) (valve set_index : Int) : OpResult :=
  if ¬(valve = 0 ∨ valve = 1) then ⟨.error "AssertionError", st, [], []⟩
  else if ¬(0 ≤ set_index ∧ set_index ≤ 3) then ⟨.error "AssertionError", st, [], []⟩
  else andThen (ensure_address st ADDRESS_VALVE) (fun st2 =>
    if valve = 0 then emit st2 (toString set_index ++ "n")
    else emit st2 (toString (set_index + 4) ++ "n"))

/-- Model of `store_parameters` (source lines 192-201): asserts only
`valve in {0,1}` — there is no range check on `set_index`. -/
def store_parameters (st : Int) (valve set_index : Int) : OpResult :=
  if ¬(valve = 0 ∨ valve = 1) then ⟨.error "AssertionError", st, [], []⟩
  else andThen (ensure_address st ADDRESS_VALVE) (fun st2 =>
    if valve = 0 then emit st2 (toString set_index ++ "N")
    else emit st2 (toString (set_index + 4) ++ "N"))

/-- Model of `set_peak_time` (source lines 203-209). -/
def set_peak_time (st : Int) (value : Int) : OpResult :=
  if ¬(10 ≤ value ∧ value ≤ 65535) then ⟨.error "AssertionError", st, [], []⟩
  else addressed_command st ADDRESS_VALVE (toString value ++ "A")

/-- Model of `set_open_time` (source lines 211-217). -/
def set_open_time (st : Int) (value : Int) : OpResult :=
  if ¬(10 ≤ value ∧ value ≤ 9999999) then ⟨.error "AssertionError", st, [], []⟩
  else addressed_command st ADDRESS_VALVE (toString value ++ "B")

/-- Model of `set_cycle_time` (source lines 219-225). -/
def set_cycle_time (st : Int) (value : Int) : OpResult :=
  if ¬(10 ≤ value ∧ value ≤ 9999999) then ⟨.error "AssertionError", st, [], []⟩
  else addressed_command st ADDRESS_VALVE (toString value ++ "C")

/-- Model of `set_peak_current` (source lines 227-235). -/
def set_peak_current (st : Int) (value : Int) : OpResult :=
  if ¬(0 ≤ value ∧ value ≤ 15) then ⟨.error "AssertionError", st, [], []⟩
  else addressed_command st ADDRESS_VALVE (toString value ++ "D")

/-- Model of `set_shot_count` (source lines 237-243). -/
def set_shot_count (st : Int) (value : Int) : OpResult :=
  if ¬(0 ≤ value ∧ value ≤ 65535) then ⟨.error "AssertionError", st, [], []⟩
  else addressed_command st ADDRESS_VALVE (toString value ++ "G")

/-! ## The line reader (`read_line`, source lines 18-27)

`self.buffer.split('\n')` is modelled by `split_newline`, which returns
Python's `lines[0]` paired with `lines[1:]`; `'\n'.join(...)` is
`join_newline`.  `read_line` appends each delivered chunk to the buffer and,
as soon as the buffer contains a `'\n'`, returns `lines[0]` and stores the
re-joined remainder back into the buffer.  A transport that stops delivering
chunks before a terminator appears leaves the Python loop spinning; that is
the `none` case here. -/

/-- Python `s.split('\n')`, presented as `(lines[0], lines[1:])`. -/
def split_newline : List Char → List Char × List (List Char)
  | [] => ([], [])
  | c :: rest =>
    if c = '\n' then ([], (split_newline rest).1 :: (split_newline rest).2)
    else (c :: (split_newline rest).1, (split_newline rest).2)

/-- Python `'\n'.join(lines)`. -/
def join_newline : List (List Char) → List Char
  | [] => []
  | [l] => l
  | l :: l2 :: ls => l ++ '\n' :: join_newline (l2 :: ls)

/-- Model of `read_line`: `buffer` is `self.buffer`; each element of `chunks` is the
decoded result of one `self.port.read()` call, consumed in order.  Returns
the line, the new buffer, and the chunks not yet consumed; `none` when the
chunk sequence is exhausted with no terminator in the buffer (the Python
loop keeps blocking). -/
def read_line (buffer : List Char) : List (List Char) → Option (List Char × List Char × List (List Char))
  | [] => none
  | chunk :: rest =>
    if '\n' ∈ buffer ++ chunk then
      some ((split_newline (buffer ++ chunk)).1,
        join_newline (split_newline (buffer ++ chunk)).2, rest)
    else read_line (buffer ++ chunk) rest

/-! ## Reset (`reset`, source lines 32-39) and `init` (lines 41-45)

`reset` writes the raw bytes `0x12 0x1b` (not a `command` exchange), then
loops reading lines until one, stripped of whitespace, equals
`TERMINAL-Mode`.  The loop is modelled on the finite list of lines the
device will deliver (each element the result of one `read_line` call);
`none` means the banner never arrives and the Python loop never returns. -/

/-- The two raw bytes written by `reset` before polling. -/
def reset_write_bytes : List Nat := [0x12, 0x1b]

/-- The whitespace set of Python's `str.strip()`. -/
def is_python_space (c : Char) : Bool :=
  c == ' ' || c == '\t' || c == '\n' || c == '\r' || c == '\x0b' || c == '\x0c'

/-- Python `s.strip()`: drop whitespace from both ends. -/
def strip (s : List Char) : List Char :=
  ((s.dropWhile is_python_space).reverse.dropWhile is_python_space).reverse

/-- The banner line `reset` polls for. -/
def terminal_banner : List Char := "TERMINAL-Mode".toList

/-- The polling loop of `reset`: returns the consumed lines (up to and
including the banner line) and the lines left undelivered. -/
def reset_loop : List (List Char) → Option (List (List Char) × List (List Char))
  | [] => none
  | l :: rest =>
    if strip l = terminal_banner then some ([l], rest)
    else
      match reset_loop rest with
      | none => none
      | some (consumed, remaining) => some (l :: consumed, remaining)

/-! ## Whole-session traces

`POp` enumerates the public operations of the session (the two stubbed
methods that unconditionally raise `Unimplemented` are omitted: they touch
neither the transport nor `current_address`).  `reset` and `init` carry the
lines the device would deliver to their polling loop.  `step` gives each
operation's `OpResult` from a given `current_address`; `run_states` lists
`current_address` after each operation of a sequence, stopping after an
operation that raised (as the Python exception would). -/

inductive POp where
  | reset (lines : List (List Char))
  | init (lines : List (List Char))
  | set_address (n : Int)
  | get_address
  | set_plc_standard_mode
  | set_plc_last_state_restore_mode
  | set_baud_rate (b : Int)
  | set_shot_trigger_mode
  | set_continuous_trigger_mode
  | set_series_trigger_mode
  | set_endless_trigger_mode
  | stop_triggering
  | single_shot (v1 v2 : Bool)
  | series_shot (v1 v2 : Bool)
  | series_shot_stop
  | load_parameters (valve bank : Int)
  | store_parameters (valve bank : Int)
  | set_peak_time (v : Int)
  | set_open_time (v : Int)
  | set_cycle_time (v : Int)
  | set_peak_current (v : Int)
  | set_shot_count (v : Int)
deriving Repr, DecidableEq

/-- One public operation, from `current_address = st`.  `reset` never touches
`current_address` and performs no `command` exchange; a `reset` whose banner
never arrives blocks forever, modelled as an error outcome with no state
change.  `init` runs `reset` then issues `command('0*')` and `command('0n')`
directly — NOT via `set_address`, so `current_address` is not assigned. -/
def step (st : Int) : POp → OpResult
  | .reset lines =>
    match reset_loop lines with
    | none => ⟨.error "blocked", st, [], []⟩
    | some _ => ⟨.ok (), st, [], []⟩
  | .init lines =>
    match reset_loop lines with
    | none => ⟨.error "blocked", st, [], []⟩
    | some _ => andThen (emit st "0*") (fun st2 => emit st2 "0n")
  | .set_address n => set_address st n
  | .get_address => get_address st
  | .set_plc_standard_mode => set_plc_standard_mode st
  | .set_plc_last_state_restore_mode => set_plc_last_state_restore_mode st
  | .set_baud_rate b => set_baud_rate st b
  | .set_shot_trigger_mode => set_shot_trigger_mode st
  | .set_continuous_trigger_mode => set_continuous_trigger_mode st
  | .set_series_trigger_mode => set_series_trigger_mode st
  | .set_endless_trigger_mode => set_endless_trigger_mode st
  | .stop_triggering => stop_triggering st
  | .single_shot v1 v2 => single_shot st v1 v2
  | .series_shot v1 v2 => series_shot st v1 v2
  | .series_shot_stop => series_shot_stop st
  | .load_parameters valve bank => load_parameters st valve bank
  | .store_parameters valve bank => store_parameters st valve bank
  | .set_peak_time v => set_peak_time st v
  | .set_open_time v => set_open_time st v
  | .set_cycle_time v => set_cycle_time st v
  | .set_peak_current v => set_peak_current st v
  | .set_shot_count v => set_shot_count st v

/-- Did the operation finish without raising? -/
def is_ok : Except String Unit → Bool
  | .ok _ => true
  | .error _ => false

/-- The states visited by a sequence of operations together with, for each,
the accumulated ghost record of addresses assigned via `set_address` so far.
An operation that raises still contributes its (possibly mutated) state, and
the sequence then aborts, as the propagating Python exception would. -/
def run_states (st : Int) (sets : List Int) : List POp → List (Int × List Int)
  | [] => []
  | op :: rest =>
    if is_ok (step st op).result then
      ((step st op).current_address, sets ++ (step st op).addr_sets) ::
        run_states (step st op).current_address (sets ++ (step st op).addr_sets) rest
    else [((step st op).current_address, sets ++ (step st op).addr_sets)]

/-! ## Basic lemmas about the sequencing combinators -/

theorem andThen_ok (st : Int) (tx : List String) (sets : List Int) (f : Int → OpResult) :
    andThen ⟨.ok (), st, tx, sets⟩ f =
      ⟨(f st).result, (f st).current_address, tx ++ (f st).tx, sets ++ (f st).addr_sets⟩ := rfl

theorem andThen_error (e : String) (st : Int) (tx : List String) (sets : List Int)
    (f : Int → OpResult) :
    andThen ⟨.error e, st, tx, sets⟩ f = ⟨.error e, st, tx, sets⟩ := rfl

theorem ensure_address_hit (st t : Int) (h : st = t) :
    ensure_address st t = ⟨.ok (), st, [], []⟩ := by
  unfold ensure_address
  rw [if_pos h]

theorem ensure_address_miss_master (st : Int) (h : ¬ st = ADDRESS_MASTER) :
    ensure_address st ADDRESS_MASTER = ⟨.ok (), 8, ["8*"], [8]⟩ := by
  unfold ensure_address set_address
  rw [if_neg h, if_neg (by decide)]
  rfl

theorem ensure_address_miss_valve (st : Int) (h : ¬ st = ADDRESS_VALVE) :
    ensure_address st ADDRESS_VALVE = ⟨.ok (), 0, ["0*"], [0]⟩ := by
  unfold ensure_address set_address
  rw [if_neg h, if_neg (by decide)]
  rfl

theorem addressed_command_master (st : Int) (cmd : String) :
    addressed_command st ADDRESS_MASTER cmd =
      if st = 8 then ⟨.ok (), st, [cmd], []⟩ else ⟨.ok (), 8, ["8*", cmd], [8]⟩ := by
  by_cases h : st = 8
  · rw [if_pos h]
    unfold addressed_command
    rw [ensure_address_hit st ADDRESS_MASTER h]
    rfl
  · rw [if_neg h]
    unfold addressed_command
    rw [ensure_address_miss_master st h]
    rfl

theorem addressed_command_valve (st : Int) (cmd : String) :
    addressed_command st ADDRESS_VALVE cmd =
      if st = 0 then ⟨.ok (), st, [cmd], []⟩ else ⟨.ok (), 0, ["0*", cmd], [0]⟩ := by
  by_cases h : st = 0
  · rw [if_pos h]
    unfold addressed_command
    rw [ensure_address_hit st ADDRESS_VALVE h]
    rfl
  · rw [if_neg h]
    unfold addressed_command
    rw [ensure_address_miss_valve st h]
    rfl

/-! ## Claim C3 -/

/-- Claim C3: for every integer `n` with `0 <= n <= 8`, `set_address n`
succeeds, transmits the command `"{n}*"`, and leaves `current_address = n`;
for every `n` outside `[0,8]` it fails with the validation error, transmits
nothing, and leaves `current_address` unchanged. -/
theorem claim_C3_set_address (st n : Int) :
    (0 ≤ n ∧ n ≤ 8 →
      set_address st n = ⟨.ok (), n, [toString n ++ "*"], [n]⟩) ∧
    (n < 0 ∨ n > 8 →
      set_address st n = ⟨.error "Address out of range", st, [], []⟩) := by
  constructor
  · intro h
    unfold set_address
    rw [if_neg (by omega)]
  · intro h
    unfold set_address
    rw [if_pos h]

/-- Witness for C3 at concrete inputs: `set_address 2 5` transmits `"5*"` and
sets the address to 5; `set_address 2 9` fails leaving the address at 2. -/
theorem claim_C3_witness :
    set_address 2 5 = ⟨.ok (), 5, [toString (5 : Int) ++ "*"], [5]⟩ ∧
    set_address 2 9 = ⟨.error "Address out of range", 2, [], []⟩ :=
  ⟨(claim_C3_set_address 2 5).1 (by decide), (claim_C3_set_address 2 9).2 (by decide)⟩

/-! ## Claim C4 -/

/-- Claim C4: with `current_address = 0`, `single_shot` emits `V` when both
valve flags are true, `Y` when only `v1` is true, and `Z` otherwise, so
`(false, true)` and `(false, false)` emit the same `Z`; `series_shot`
analogously emits `U`/`Q`/`R` with the same collapse onto `R`. -/
theorem claim_C4_shot_commands :
    single_shot 0 true true = ⟨.ok (), 0, ["V"], []⟩ ∧
    single_shot 0 true false = ⟨.ok (), 0, ["Y"], []⟩ ∧
    single_shot 0 false true = ⟨.ok (), 0, ["Z"], []⟩ ∧
    single_shot 0 false false = ⟨.ok (), 0, ["Z"], []⟩ ∧
    single_shot 0 false true = single_shot 0 false false ∧
    series_shot 0 true true = ⟨.ok (), 0, ["U"], []⟩ ∧
    series_shot 0 true false = ⟨.ok (), 0, ["Q"], []⟩ ∧
    series_shot 0 false true = ⟨.ok (), 0, ["R"], []⟩ ∧
    series_shot 0 false false = ⟨.ok (), 0, ["R"], []⟩ ∧
    series_shot 0 false true = series_shot 0 false false := by
  decide

/-! ## Claim C10 -/

/-- Claim C10: `get_address` performs no ensure-addressed step and no
assignment: from any session state it transmits exactly the single command
`"="` and leaves `current_address` unchanged. -/
theorem claim_C10_get_address (st : Int) :
    get_address st = ⟨.ok (), st, ["="], []⟩ := rfl

/-! ## Claim C1 -/

/-- Counterexample to claim C1: with `current_address = 0`, an unsupported
baud rate (1234) still transmits the addressing command `"8*"` and moves
`current_address` to 8 before the validation failure, contradicting "fails
... without transmitting any bytes and without any protocol state change
... regardless of whether current_address already equals 8". -/
theorem claim_C1_counterexample :
    (set_baud_rate 0 1234).result = .error "Cannot set specified baud rate" ∧
    (set_baud_rate 0 1234).tx = ["8*"] ∧
    (set_baud_rate 0 1234).current_address = 8 ∧ (0 : Int) ≠ 8 := by
  decide

/-- Claim C1 as amended: each supported baud rate emits its mapped
single-digit `%` command, preceded by the addressing exchange `"8*"` exactly
when `current_address ≠ 8` (which also moves `current_address` to 8); every
other value fails with the validation error only after that same addressing
preamble has run, transmitting no baud command — so the failure transmits
nothing and changes no state only when `current_address` was already 8. -/
theorem claim_C1_amended (st baud : Int) :
    (baud = 9600 → set_baud_rate st baud =
      ⟨.ok (), 8, (if st = 8 then [] else ["8*"]) ++ ["0%"], if st = 8 then [] else [8]⟩) ∧
    (baud = 19200 → set_baud_rate st baud =
      ⟨.ok (), 8, (if st = 8 then [] else ["8*"]) ++ ["1%"], if st = 8 then [] else [8]⟩) ∧
    (baud = 38400 → set_baud_rate st baud =
      ⟨.ok (), 8, (if st = 8 then [] else ["8*"]) ++ ["2%"], if st = 8 then [] else [8]⟩) ∧
    (baud = 57600 → set_baud_rate st baud =
      ⟨.ok (), 8, (if st = 8 then [] else ["8*"]) ++ ["3%"], if st = 8 then [] else [8]⟩) ∧
    (baud = 115200 → set_baud_rate st baud =
      ⟨.ok (), 8, (if st = 8 then [] else ["8*"]) ++ ["4%"], if st = 8 then [] else [8]⟩) ∧
    (baud = 230400 → set_baud_rate st baud =
      ⟨.ok (), 8, (if st = 8 then [] else ["8*"]) ++ ["5%"], if st = 8 then [] else [8]⟩) ∧
    (baud ≠ 9600 → baud ≠ 19200 → baud ≠ 38400 → baud ≠ 57600 → baud ≠ 115200 → baud ≠ 230400 →
      set_baud_rate st baud =
      ⟨.error "Cannot set specified baud rate", 8,
        if st = 8 then [] else ["8*"], if st = 8 then [] else [8]⟩) := by
  have hens : ensure_address st ADDRESS_MASTER =
      if st = 8 then ⟨.ok (), st, [], []⟩ else ⟨.ok (), 8, ["8*"], [8]⟩ := by
    by_cases h : st = 8
    · rw [if_pos h, ensure_address_hit st ADDRESS_MASTER h]
    · rw [if_neg h, ensure_address_miss_master st h]
  refine ⟨?_, ?_, ?_, ?_, ?_, ?_, ?_⟩ <;> intros <;>
    unfold set_baud_rate <;> rw [hens] <;> by_cases h : st = 8 <;>
    simp_all [andThen, emit]

/-- The transmission of an ensure-addressed body: at most the addressing
exchange plus whatever the continuation transmits. -/
theorem tx_length_andThen_ensure (st t : Int) (f : Int → OpResult)
    (hf : ∀ s, (f s).tx.length ≤ 1) :
    (andThen (ensure_address st t) f).tx.length ≤ 2 := by
  unfold ensure_address set_address
  by_cases h1 : st = t
  · rw [if_pos h1, andThen_ok]
    have := hf st
    simp only [List.nil_append]
    omega
  · rw [if_neg h1]
    by_cases h2 : t < 0 ∨ t > 8
    · rw [if_pos h2, andThen_error]
      simp
    · rw [if_neg h2, andThen_ok]
      have := hf t
      simp only [List.cons_append, List.nil_append, List.length_cons]
      omega

/-- Witness for the amended C1 at concrete inputs: from address 0, a
supported rate first addresses the master and then emits the baud command;
an unsupported rate fails after the addressing preamble alone. -/
theorem claim_C1_witness :
    set_baud_rate 0 19200 = ⟨.ok (), 8, ["8*"] ++ ["1%"], [8]⟩ ∧
    set_baud_rate 8 1234 = ⟨.error "Cannot set specified baud rate", 8, [], []⟩ := by
  constructor
  · have h := (claim_C1_amended 0 19200).2.1 rfl
    simpa using h
  · have h := (claim_C1_amended 8 1234).2.2.2.2.2.2
      (by decide) (by decide) (by decide) (by decide) (by decide) (by decide)
    simpa using h

/-! ## Claim C2 -/

/-- Counterexample to claim C2: each entry of `tx` is one `command` exchange,
i.e. one transport write followed by one blocking read, so
`set_baud_rate` called with `current_address = 0` performs two writes and two
reads — more than the "at most one write ... exactly one blocking read" the
claim allows for every public operation. -/
theorem claim_C2_counterexample :
    (set_baud_rate 0 9600).tx = ["8*", "0%"] ∧ 1 < (set_baud_rate 0 9600).tx.length := by
  decide

/-- Claim C2 as amended: each `command` exchange is exactly one write
followed by exactly one blocking read (one `tx` entry), and every public
operation performs at most two such exchanges — one optional addressing
exchange plus at most one operation exchange (`init` performs exactly its
two fixed exchanges after the raw reset write; `reset` performs none). -/
theorem claim_C2_amended (st : Int) (op : POp) :
    (step st op).tx.length ≤ 2 := by
  cases op with
  | reset lines =>
    simp only [step]
    cases h : reset_loop lines <;> simp
  | init lines =>
    simp only [step]
    cases h : reset_loop lines <;> simp [andThen, emit]
  | set_address n =>
    simp only [step]
    unfold set_address
    split <;> simp
  | get_address =>
    simp only [step]
    simp [get_address, emit]
  | set_plc_standard_mode =>
    simp only [step]
    unfold set_plc_standard_mode addressed_command
    exact tx_length_andThen_ensure _ _ _ (fun s => by simp [emit])
  | set_plc_last_state_restore_mode =>
    simp only [step]
    unfold set_plc_last_state_restore_mode addressed_command
    exact tx_length_andThen_ensure _ _ _ (fun s => by simp [emit])
  | set_baud_rate b =>
    simp only [step]
    unfold set_baud_rate
    exact tx_length_andThen_ensure _ _ _ (fun s => by split_ifs <;> simp [emit])
  | set_shot_trigger_mode =>
    simp only [step]
    unfold set_shot_trigger_mode addressed_command
    exact tx_length_andThen_ensure _ _ _ (fun s => by simp [emit])
  | set_continuous_trigger_mode =>
    simp only [step]
    unfold set_continuous_trigger_mode addressed_command
    exact tx_length_andThen_ensure _ _ _ (fun s => by simp [emit])
  | set_series_trigger_mode =>
    simp only [step]
    unfold set_series_trigger_mode addressed_command
    exact tx_length_andThen_ensure _ _ _ (fun s => by simp [emit])
  | set_endless_trigger_mode =>
    simp only [step]
    unfold set_endless_trigger_mode addressed_command
    exact tx_length_andThen_ensure _ _ _ (fun s => by simp [emit])
  | stop_triggering =>
    simp only [step]
    unfold stop_triggering addressed_command
    exact tx_length_andThen_ensure _ _ _ (fun s => by simp [emit])
  | single_shot v1 v2 =>
    simp only [step]
    unfold single_shot
    exact tx_length_andThen_ensure _ _ _ (fun s => by split_ifs <;> simp [emit])
  | series_shot v1 v2 =>
    simp only [step]
    unfold series_shot
    exact tx_length_andThen_ensure _ _ _ (fun s => by split_ifs <;> simp [emit])
  | series_shot_stop =>
    simp only [step]
    unfold series_shot_stop addressed_command
    exact tx_length_andThen_ensure _ _ _ (fun s => by simp [emit])
  | load_parameters valve bank =>
    simp only [step]
    unfold load_parameters
    split
    · simp
    · split
      · simp
      · exact tx_length_andThen_ensure _ _ _ (fun s => by split_ifs <;> simp [emit])
  | store_parameters valve bank =>
    simp only [step]
    unfold store_parameters
    split
    · simp
    · exact tx_length_andThen_ensure _ _ _ (fun s => by split_ifs <;> simp [emit])
  | set_peak_time v =>
    simp only [step]
    unfold set_peak_time
    split
    · simp
    · exact tx_length_andThen_ensure _ _ _ (fun s => by simp [emit])
  | set_open_time v =>
    simp only [step]
    unfold set_open_time
    split
    · simp
    · exact tx_length_andThen_ensure _ _ _ (fun s => by simp [emit])
  | set_cycle_time v =>
    simp only [step]
    unfold set_cycle_time
    split
    · simp
    · exact tx_length_andThen_ensure _ _ _ (fun s => by simp [emit])
  | set_peak_current v =>
    simp only [step]
    unfold set_peak_current
    split
    · simp
    · exact tx_length_andThen_ensure _ _ _ (fun s => by simp [emit])
  | set_shot_count v =>
    simp only [step]
    unfold set_shot_count
    split
    · simp
    · exact tx_length_andThen_ensure _ _ _ (fun s => by simp [emit])

/-! ## Claim C6 -/

/-- Claim C6: calling an address-scoped operation twice in a row for the same
logical unit transmits the addressing command at most once.  Shown for the
valve-scoped `set_peak_time` and the master-scoped `set_plc_standard_mode`:
the first call transmits the addressing command exactly when
`current_address` differs from the target (none when it already matches),
and the second call, starting from the state the first call left behind,
transmits no addressing command at all; the total number of addressing
commands across the two calls (counted by the ghost `addr_sets` record,
one entry per transmitted `"{n}*"`) is at most one. -/
theorem claim_C6_addressing_idempotent (st value : Int)
    (h10 : 10 ≤ value) (h65535 : value ≤ 65535) :
    (set_peak_time st value =
      ⟨.ok (), 0, (if st = 0 then [] else ["0*"]) ++ [toString value ++ "A"],
        if st = 0 then [] else [0]⟩) ∧
    (set_peak_time (set_peak_time st value).current_address value =
      ⟨.ok (), 0, [toString value ++ "A"], []⟩) ∧
    ((set_peak_time st value).addr_sets.length +
      (set_peak_time (set_peak_time st value).current_address value).addr_sets.length ≤ 1) ∧
    (st = 0 → (set_peak_time st value).addr_sets = []) ∧
    (set_plc_standard_mode st =
      ⟨.ok (), 8, (if st = 8 then [] else ["8*"]) ++ ["00F"], if st = 8 then [] else [8]⟩) ∧
    (set_plc_standard_mode (set_plc_standard_mode st).current_address =
      ⟨.ok (), 8, ["00F"], []⟩) ∧
    ((set_plc_standard_mode st).addr_sets.length +
      (set_plc_standard_mode (set_plc_standard_mode st).current_address).addr_sets.length ≤ 1) ∧
    (st = 8 → (set_plc_standard_mode st).addr_sets = []) := by
  have hspt : ∀ s : Int, set_peak_time s value =
      addressed_command s ADDRESS_VALVE (toString value ++ "A") := by
    intro s
    unfold set_peak_time
    rw [if_neg (not_not_intro ⟨h10, h65535⟩)]
  have h1 : set_peak_time st value =
      ⟨.ok (), 0, (if st = 0 then [] else ["0*"]) ++ [toString value ++ "A"],
        if st = 0 then [] else [0]⟩ := by
    rw [hspt, addressed_command_valve]
    by_cases h : st = 0 <;> simp [h]
  have h2 : set_peak_time 0 value = ⟨.ok (), 0, [toString value ++ "A"], []⟩ := by
    rw [hspt, addressed_command_valve]
    simp
  have hplc : set_plc_standard_mode st =
      ⟨.ok (), 8, (if st = 8 then [] else ["8*"]) ++ ["00F"], if st = 8 then [] else [8]⟩ := by
    unfold set_plc_standard_mode
    rw [addressed_command_master]
    by_cases h : st = 8 <;> simp [h]
  have hplc8 : set_plc_standard_mode 8 = ⟨.ok (), 8, ["00F"], []⟩ := by
    unfold set_plc_standard_mode
    rw [addressed_command_master]
    simp
  refine ⟨h1, ?_, ?_, ?_, hplc, ?_, ?_, ?_⟩
  · rw [h1]
    exact h2
  · rw [h1]
    by_cases h : st = 0 <;> simp [h, h2]
  · intro h
    rw [h1]
    simp [h]
  · rw [hplc]
    exact hplc8
  · rw [hplc]
    by_cases h : st = 8 <;> simp [h, hplc8]
  · intro h
    rw [hplc]
    simp [h]

/-- Witness for C6 at concrete inputs: from address 3, the first
`set_peak_time 400` addresses the valve (`"0*"`) and emits `"400A"`; the
second call from the resulting state emits only `"400A"`. -/
theorem claim_C6_witness :
    set_peak_time 3 400 =
      ⟨.ok (), 0, ["0*"] ++ [toString (400 : Int) ++ "A"], [0]⟩ ∧
    set_peak_time (set_peak_time 3 400).current_address 400 =
      ⟨.ok (), 0, [toString (400 : Int) ++ "A"], []⟩ := by
  have h := claim_C6_addressing_idempotent 3 400 (by decide) (by decide)
  exact ⟨by simpa using h.1, h.2.1⟩

/-! ## Claim C7 -/

/-- Claim C7: `store_parameters valve bank` fails its assertion iff `valve`
is neither 0 nor 1; for `valve ∈ {0,1}` and EVERY integer `bank` — including
banks outside `[0,3]` — it transmits `"{bank}N"` (valve 0) or `"{bank+4}N"`
(valve 1), after the usual valve addressing; `load_parameters` additionally
asserts `0 ≤ bank ≤ 3` and fails, transmitting nothing, for banks outside
that range. -/
theorem claim_C7_store_load (st valve bank : Int) :
    ((store_parameters st valve bank).result = .error "AssertionError" ↔
      ¬(valve = 0 ∨ valve = 1)) ∧
    (valve = 0 → store_parameters st valve bank =
      ⟨.ok (), 0, (if st = 0 then [] else ["0*"]) ++ [toString bank ++ "N"],
        if st = 0 then [] else [0]⟩) ∧
    (valve = 1 → store_parameters st valve bank =
      ⟨.ok (), 0, (if st = 0 then [] else ["0*"]) ++ [toString (bank + 4) ++ "N"],
        if st = 0 then [] else [0]⟩) ∧
    (¬(valve = 0 ∨ valve = 1) →
      store_parameters st valve bank = ⟨.error "AssertionError", st, [], []⟩) ∧
    ((valve = 0 ∨ valve = 1) → ¬(0 ≤ bank ∧ bank ≤ 3) →
      load_parameters st valve bank = ⟨.error "AssertionError", st, [], []⟩) ∧
    ((valve = 0 ∨ valve = 1) → 0 ≤ bank ∧ bank ≤ 3 →
      load_parameters st valve bank =
        ⟨.ok (), 0,
          (if st = 0 then [] else ["0*"]) ++
            [(if valve = 0 then toString bank else toString (bank + 4)) ++ "n"],
          if st = 0 then [] else [0]⟩) := by
  have hstore0 : valve = 0 → store_parameters st valve bank =
      ⟨.ok (), 0, (if st = 0 then [] else ["0*"]) ++ [toString bank ++ "N"],
        if st = 0 then [] else [0]⟩ := by
    intro hv
    subst hv
    unfold store_parameters
    rw [if_neg (by simp)]
    by_cases h : st = 0
    · rw [ensure_address_hit st ADDRESS_VALVE h, andThen_ok]
      simp [emit, h]
    · rw [ensure_address_miss_valve st h, andThen_ok]
      simp [emit, h]
  have hstore1 : valve = 1 → store_parameters st valve bank =
      ⟨.ok (), 0, (if st = 0 then [] else ["0*"]) ++ [toString (bank + 4) ++ "N"],
        if st = 0 then [] else [0]⟩ := by
    intro hv
    subst hv
    unfold store_parameters
    rw [if_neg (by simp)]
    by_cases h : st = 0
    · rw [ensure_address_hit st ADDRESS_VALVE h, andThen_ok]
      simp [emit, h]
    · rw [ensure_address_miss_valve st h, andThen_ok]
      simp [emit, h]
  have hstoreBad : ¬(valve = 0 ∨ valve = 1) →
      store_parameters st valve bank = ⟨.error "AssertionError", st, [], []⟩ := by
    intro hv
    unfold store_parameters
    rw [if_pos hv]
  refine ⟨?_, hstore0, hstore1, hstoreBad, ?_, ?_⟩
  · constructor
    · intro h hc
      rcases hc with hv | hv
      · rw [hstore0 hv] at h
        simp at h
      · rw [hstore1 hv] at h
        simp at h
    · intro hv
      rw [hstoreBad hv]
  · intro hv hbank
    unfold load_parameters
    rw [if_neg (not_not_intro hv), if_pos hbank]
  · intro hv hbank
    unfold load_parameters
    rw [if_neg (not_not_intro hv), if_neg (not_not_intro hbank)]
    by_cases h : st = 0
    · rw [ensure_address_hit st ADDRESS_VALVE h, andThen_ok]
      rcases hv with hv | hv <;> subst hv <;> simp [emit, h]
    · rw [ensure_address_miss_valve st h, andThen_ok]
      rcases hv with hv | hv <;> subst hv <;> simp [emit, h]

/-- Witness for C7 at concrete inputs: with the valve already addressed,
`store_parameters 1 7` happily transmits `"11N"` even though bank 7 is
outside `[0,3]`, while `load_parameters 1 7` fails its bank assertion. -/
theorem claim_C7_witness :
    store_parameters 0 1 7 =
      ⟨.ok (), 0, [] ++ [toString ((7 : Int) + 4) ++ "N"], []⟩ ∧
    load_parameters 0 1 7 = ⟨.error "AssertionError", 0, [], []⟩ := by
  have h := claim_C7_store_load 0 1 7
  refine ⟨?_, h.2.2.2.2.1 (Or.inr rfl) (by decide)⟩
  have h1 := h.2.2.1 rfl
  simpa using h1

/-! ## Claim C8: the `current_address` invariant

`AddrOk st r` says a single operation run from address `st` either never
called `set_address` (no ghost entry, address unchanged) or last called it
with some in-range `n` that is now the current address. -/

def AddrOk (st : Int) (r : OpResult) : Prop :=
  (r.addr_sets = [] ∧ r.current_address = st) ∨
  (∃ n, r.addr_sets = [n] ∧ r.current_address = n ∧ 0 ≤ n ∧ n ≤ 8)

theorem AddrOk_andThen_ensure (st t : Int) (h : ¬(t < 0 ∨ t > 8)) (f : Int → OpResult)
    (hf : ∀ s, (f s).current_address = s ∧ (f s).addr_sets = []) :
    AddrOk st (andThen (ensure_address st t) f) := by
  by_cases hst : st = t
  · rw [ensure_address_hit st t hst, andThen_ok]
    left
    constructor
    · simp [(hf st).2]
    · simp [(hf st).1]
  · unfold ensure_address set_address
    rw [if_neg hst, if_neg h, andThen_ok]
    right
    refine ⟨t, ?_, ?_, by omega, by omega⟩
    · simp [(hf t).2]
    · simp [(hf t).1]

theorem AddrOk_set_address (st n : Int) : AddrOk st (set_address st n) := by
  unfold set_address
  split
  next h => exact .inl ⟨rfl, rfl⟩
  next h => exact .inr ⟨n, rfl, rfl, by omega, by omega⟩

/-- Every public operation either leaves `current_address` alone and records
no `set_address` call, or records exactly the in-range address it switched
to. -/
theorem step_AddrOk (st : Int) (op : POp) : AddrOk st (step st op) := by
  cases op with
  | reset lines =>
    simp only [step]
    cases h : reset_loop lines <;> exact .inl ⟨rfl, rfl⟩
  | init lines =>
    simp only [step]
    cases h : reset_loop lines
    · exact .inl ⟨rfl, rfl⟩
    · exact .inl ⟨rfl, rfl⟩
  | set_address n =>
    simp only [step]
    exact AddrOk_set_address st n
  | get_address =>
    simp only [step]
    exact .inl ⟨rfl, rfl⟩
  | set_plc_standard_mode =>
    simp only [step]
    unfold set_plc_standard_mode addressed_command
    exact AddrOk_andThen_ensure st ADDRESS_MASTER (by decide) _ (fun s => ⟨rfl, rfl⟩)
  | set_plc_last_state_restore_mode =>
    simp only [step]
    unfold set_plc_last_state_restore_mode addressed_command
    exact AddrOk_andThen_ensure st ADDRESS_MASTER (by decide) _ (fun s => ⟨rfl, rfl⟩)
  | set_baud_rate b =>
    simp only [step]
    unfold set_baud_rate
    refine AddrOk_andThen_ensure st ADDRESS_MASTER (by decide) _ (fun s => ?_)
    constructor <;> split_ifs <;> rfl
  | set_shot_trigger_mode =>
    simp only [step]
    unfold set_shot_trigger_mode addressed_command
    exact AddrOk_andThen_ensure st ADDRESS_VALVE (by decide) _ (fun s => ⟨rfl, rfl⟩)
  | set_continuous_trigger_mode =>
    simp only [step]
    unfold set_continuous_trigger_mode addressed_command
    exact AddrOk_andThen_ensure st ADDRESS_VALVE (by decide) _ (fun s => ⟨rfl, rfl⟩)
  | set_series_trigger_mode =>
    simp only [step]
    unfold set_series_trigger_mode addressed_command
    exact AddrOk_andThen_ensure st ADDRESS_VALVE (by decide) _ (fun s => ⟨rfl, rfl⟩)
  | set_endless_trigger_mode =>
    simp only [step]
    unfold set_endless_trigger_mode addressed_command
    exact AddrOk_andThen_ensure st ADDRESS_VALVE (by decide) _ (fun s => ⟨rfl, rfl⟩)
  | stop_triggering =>
    simp only [step]
    unfold stop_triggering addressed_command
    exact AddrOk_andThen_ensure st ADDRESS_VALVE (by decide) _ (fun s => ⟨rfl, rfl⟩)
  | single_shot v1 v2 =>
    simp only [step]
    unfold single_shot
    refine AddrOk_andThen_ensure st ADDRESS_VALVE (by decide) _ (fun s => ?_)
    constructor <;> split_ifs <;> rfl
  | series_shot v1 v2 =>
    simp only [step]
    unfold series_shot
    refine AddrOk_andThen_ensure st ADDRESS_VALVE (by decide) _ (fun s => ?_)
    constructor <;> split_ifs <;> rfl
  | series_shot_stop =>
    simp only [step]
    unfold series_shot_stop addressed_command
    exact AddrOk_andThen_ensure st ADDRESS_VALVE (by decide) _ (fun s => ⟨rfl, rfl⟩)
  | load_parameters valve bank =>
    simp only [step]
    unfold load_parameters
    split
    · exact .inl ⟨rfl, rfl⟩
    · split
      · exact .inl ⟨rfl, rfl⟩
      · refine AddrOk_andThen_ensure st ADDRESS_VALVE (by decide) _ (fun s => ?_)
        constructor <;> split_ifs <;> rfl
  | store_parameters valve bank =>
    simp only [step]
    unfold store_parameters
    split
    · exact .inl ⟨rfl, rfl⟩
    · refine AddrOk_andThen_ensure st ADDRESS_VALVE (by decide) _ (fun s => ?_)
      constructor <;> split_ifs <;> rfl
  | set_peak_time v =>
    simp only [step]
    unfold set_peak_time
    split
    · exact .inl ⟨rfl, rfl⟩
    · unfold addressed_command
      exact AddrOk_andThen_ensure st ADDRESS_VALVE (by decide) _ (fun s => ⟨rfl, rfl⟩)
  | set_open_time v =>
    simp only [step]
    unfold set_open_time
    split
    · exact .inl ⟨rfl, rfl⟩
    · unfold addressed_command
      exact AddrOk_andThen_ensure st ADDRESS_VALVE (by decide) _ (fun s => ⟨rfl, rfl⟩)
  | set_cycle_time v =>
    simp only [step]
    unfold set_cycle_time
    split
    · exact .inl ⟨rfl, rfl⟩
    · unfold addressed_command
      exact AddrOk_andThen_ensure st ADDRESS_VALVE (by decide) _ (fun s => ⟨rfl, rfl⟩)
  | set_peak_current v =>
    simp only [step]
    unfold set_peak_current
    split
    · exact .inl ⟨rfl, rfl⟩
    · unfold addressed_command
      exact AddrOk_andThen_ensure st ADDRESS_VALVE (by decide) _ (fun s => ⟨rfl, rfl⟩)
  | set_shot_count v =>
    simp only [step]
    unfold set_shot_count
    split
    · exact .inl ⟨rfl, rfl⟩
    · unfold addressed_command
      exact AddrOk_andThen_ensure st ADDRESS_VALVE (by decide) _ (fun s => ⟨rfl, rfl⟩)

/-- The run invariant: from an in-range state that equals the last
`set_address` target so far (default 0), every visited state is in range and
still equals the last `set_address` target. -/
theorem run_states_inv (ops : List POp) :
    ∀ st sets, 0 ≤ st → st ≤ 8 → st = sets.getLastD 0 →
      ∀ p ∈ run_states st sets ops, (0 ≤ p.1 ∧ p.1 ≤ 8) ∧ p.1 = p.2.getLastD 0 := by
  induction ops with
  | nil =>
    intro st sets _ _ _ p hp
    simp [run_states] at hp
  | cons op rest ih =>
    intro st sets h0 h8 hlast p hp
    have hAddr := step_AddrOk st op
    unfold AddrOk at hAddr
    have hnew : (0 ≤ (step st op).current_address ∧ (step st op).current_address ≤ 8) ∧
        (step st op).current_address = (sets ++ (step st op).addr_sets).getLastD 0 := by
      rcases hAddr with ⟨hs, hc⟩ | ⟨n, hs, hc, hn0, hn8⟩
      · constructor
        · rw [hc]
          exact ⟨h0, h8⟩
        · rw [hc, hs]
          simpa using hlast
      · constructor
        · rw [hc]
          exact ⟨hn0, hn8⟩
        · rw [hc, hs]
          simp
    simp only [run_states] at hp
    by_cases hres : is_ok (step st op).result
    · rw [if_pos hres] at hp
      rcases List.mem_cons.mp hp with hp | hp
      · subst hp
        exact ⟨hnew.1, hnew.2⟩
      · exact ih (step st op).current_address (sets ++ (step st op).addr_sets)
          hnew.1.1 hnew.1.2 hnew.2 p hp
    · rw [if_neg hres] at hp
      simp only [List.mem_singleton] at hp
      subst hp
      exact ⟨hnew.1, hnew.2⟩

/-- Claim C8: over every finite sequence of public operations from a fresh
session (`current_address = 0`, no `set_address` yet), every intermediate
`current_address` is an integer in `[0,8]` and always equals the target of
the most recent addressing command transmitted via `set_address` (the last
ghost `addr_sets` entry), or 0 if `set_address` has never run. -/
theorem claim_C8_address_invariant (ops : List POp) (p : Int × List Int)
    (hp : p ∈ ((0 : Int), ([] : List Int)) :: run_states 0 [] ops) :
    (0 ≤ p.1 ∧ p.1 ≤ 8) ∧ p.1 = p.2.getLastD 0 := by
  rcases List.mem_cons.mp hp with hp | hp
  · subst hp
    exact ⟨⟨le_refl 0, by decide⟩, rfl⟩
  · exact run_states_inv ops 0 [] (le_refl 0) (by decide) rfl p hp

/-- Witness for C8 on a concrete run: `set_address 5` then
`set_baud_rate 9600` visits the state with `current_address = 8` whose last
`set_address` target is 8 (recorded after 5). -/
theorem claim_C8_witness :
    ((0 : Int) ≤ (8 : Int) ∧ (8 : Int) ≤ 8) ∧
      (8 : Int) = ([5, 8] : List Int).getLastD 0 :=
  claim_C8_address_invariant [.set_address 5, .set_baud_rate 9600] (8, [5, 8]) (by decide)

/-! ## Claim C5: `read_line` framing -/

/-- Python's `split('\n')` puts no `'\n'` inside `lines[0]`. -/
theorem split_newline_fst_no_newline (s : List Char) : '\n' ∉ (split_newline s).1 := by
  induction s with
  | nil => simp [split_newline]
  | cons c rest ih =>
    simp only [split_newline]
    by_cases h : c = '\n'
    · rw [if_pos h]
      simp
    · rw [if_neg h]
      intro hmem
      rcases List.mem_cons.mp hmem with heq | hmem
      · exact h heq.symm
      · exact ih hmem

/-- A buffer containing a terminator splits into at least two pieces. -/
theorem split_newline_snd_ne_nil (s : List Char) (h : '\n' ∈ s) :
    (split_newline s).2 ≠ [] := by
  induction s with
  | nil => simp at h
  | cons c rest ih =>
    simp only [split_newline]
    by_cases hc : c = '\n'
    · rw [if_pos hc]
      simp
    · rw [if_neg hc]
      have hrest : '\n' ∈ rest := by
        rcases List.mem_cons.mp h with heq | hm
        · exact absurd heq.symm hc
        · exact hm
      exact ih hrest

/-- Joining undoes the split: `split('\n')`. -/
theorem join_split (s : List Char) :
    join_newline ((split_newline s).1 :: (split_newline s).2) = s := by
  induction s with
  | nil => rfl
  | cons c rest ih =>
    simp only [split_newline]
    by_cases hc : c = '\n'
    · rw [if_pos hc]
      simp only [join_newline, List.nil_append]
      rw [ih, hc]
    · rw [if_neg hc]
      cases hls : (split_newline rest).2 with
      | nil =>
        rw [hls] at ih
        simp only [join_newline] at ih ⊢
        rw [ih]
      | cons l2 ls2 =>
        rw [hls] at ih
        simp only [join_newline] at ih ⊢
        rw [List.cons_append, ih]

/-- When the buffer holds a terminator, `lines[0] ++ '\n' ++ join(lines[1:])`
is the original buffer. -/
theorem split_reconstruct (s : List Char) (h : '\n' ∈ s) :
    (split_newline s).1 ++ '\n' :: join_newline (split_newline s).2 = s := by
  have hne := split_newline_snd_ne_nil s h
  cases hsnd : (split_newline s).2 with
  | nil => exact absurd hsnd hne
  | cons l2 ls2 =>
    have hjs := join_split s
    rw [hsnd] at hjs
    simp only [join_newline] at hjs
    exact hjs

/-- Claim C5: whatever the current buffer and however the transport chops the
bytes into chunks, a successful `read_line` returns exactly the accumulated
bytes up to (not including) the first `'\n'` and retains every byte after
that terminator in the buffer for later calls: the returned line has no
`'\n'`, and buffer plus the consumed chunks re-assembles as
`line ++ '\n' ++ new-buffer`.  (Two `'\n'`-terminated lines delivered in one
read are thus returned by two successive calls, trailing partial line kept —
see the witness.) -/
theorem claim_C5_read_line (chunks : List (List Char)) :
    ∀ buffer line buf2 rest,
      read_line buffer chunks = some (line, buf2, rest) →
      '\n' ∉ line ∧
      ∃ consumed, chunks = consumed ++ rest ∧
        buffer ++ consumed.flatten = line ++ '\n' :: buf2 := by
  induction chunks with
  | nil =>
    intro buffer line buf2 rest h
    exact absurd h (by simp [read_line])
  | cons chunk crest ih =>
    intro buffer line buf2 rest h
    simp only [read_line] at h
    by_cases hnl : '\n' ∈ buffer ++ chunk
    · rw [if_pos hnl] at h
      rw [Option.some.injEq, Prod.mk.injEq, Prod.mk.injEq] at h
      obtain ⟨hline, hbuf2, hrest⟩ := h
      refine ⟨?_, [chunk], ?_, ?_⟩
      · rw [← hline]
        exact split_newline_fst_no_newline _
      · rw [← hrest]
        rfl
      · show buffer ++ List.flatten [chunk] = line ++ '\n' :: buf2
        rw [← hline, ← hbuf2]
        rw [show List.flatten [chunk] = chunk from by simp]
        exact (split_reconstruct (buffer ++ chunk) hnl).symm
    · rw [if_neg hnl] at h
      obtain ⟨hline, consumed, hchunks, hbuf⟩ := ih (buffer ++ chunk) line buf2 rest h
      refine ⟨hline, chunk :: consumed, ?_, ?_⟩
      · rw [List.cons_append, ← hchunks]
      · rw [show List.flatten (chunk :: consumed) = chunk ++ consumed.flatten from by simp,
          ← List.append_assoc]
        exact hbuf

/-- Witness for C5: a single transport read delivering `"ab\ncd\nx"` makes
the first `read_line` return `"ab"` with `"cd\nx"` retained; the second call
(given one further empty read) returns `"cd"` and retains the partial `"x"`. -/
theorem claim_C5_witness :
    ('\n' ∉ ("ab".toList) ∧
      ∃ consumed, [("ab\ncd\nx".toList)] = consumed ++ ([] : List (List Char)) ∧
        ([] : List Char) ++ consumed.flatten = "ab".toList ++ '\n' :: "cd\nx".toList) ∧
    ('\n' ∉ ("cd".toList) ∧
      ∃ consumed, [([] : List Char)] = consumed ++ ([] : List (List Char)) ∧
        "cd\nx".toList ++ consumed.flatten = "cd".toList ++ '\n' :: "x".toList) :=
  ⟨claim_C5_read_line [("ab\ncd\nx".toList)] [] "ab".toList "cd\nx".toList [] (by decide),
   claim_C5_read_line [([] : List Char)] "cd\nx".toList "cd".toList "x".toList [] (by decide)⟩

/-! ## Claim C9: `reset` -/

/-- The polling loop never finds the banner exactly when no delivered line,
stripped, equals it — in which case the Python loop keeps waiting forever. -/
theorem reset_loop_none_iff (lines : List (List Char)) :
    reset_loop lines = none ↔ ∀ l ∈ lines, strip l ≠ terminal_banner := by
  induction lines with
  | nil => simp [reset_loop]
  | cons l rest ih =>
    simp only [reset_loop]
    by_cases h : strip l = terminal_banner
    · rw [if_pos h]
      constructor
      · intro hc
        exact absurd hc (by simp)
      · intro hall
        exact absurd h (hall l (by simp))
    · rw [if_neg h]
      cases hr : reset_loop rest with
      | none =>
        simp only
        constructor
        · intro _ l2 hl2
          rcases List.mem_cons.mp hl2 with rfl | hl2
          · exact h
          · exact (ih.mp hr) l2 hl2
        · intro _
          trivial
      | some pr =>
        obtain ⟨c, r⟩ := pr
        constructor
        · intro hc
          exact absurd hc (by simp)
        · intro hall
          exfalso
          have hn : reset_loop rest = none :=
            ih.mpr (fun l2 hl2 => hall l2 (List.mem_cons_of_mem _ hl2))
          rw [hr] at hn
          exact Option.noConfusion hn

/-- When the loop returns, it has consumed exactly the delivered lines up to
and including the first banner line. -/
theorem reset_loop_some (lines : List (List Char)) :
    ∀ consumed remaining, reset_loop lines = some (consumed, remaining) →
      lines = consumed ++ remaining ∧
      ∃ pre banner, consumed = pre ++ [banner] ∧ strip banner = terminal_banner ∧
        ∀ l ∈ pre, strip l ≠ terminal_banner := by
  induction lines with
  | nil =>
    intro c r h
    exact absurd h (by simp [reset_loop])
  | cons l rest ih =>
    intro c r h
    simp only [reset_loop] at h
    by_cases hb : strip l = terminal_banner
    · rw [if_pos hb, Option.some.injEq, Prod.mk.injEq] at h
      obtain ⟨hc, hr⟩ := h
      subst hc
      subst hr
      exact ⟨rfl, [], l, rfl, hb, by simp⟩
    · rw [if_neg hb] at h
      cases hrst : reset_loop rest with
      | none =>
        rw [hrst] at h
        exact absurd h (by simp)
      | some pr =>
        obtain ⟨c2, r2⟩ := pr
        rw [hrst] at h
        rw [Option.some.injEq, Prod.mk.injEq] at h
        obtain ⟨hc, hr⟩ := h
        subst hc
        subst hr
        obtain ⟨happ, pre, banner, hcons, hban, hpre⟩ := ih c2 r2 hrst
        refine ⟨by rw [List.cons_append, ← happ], l :: pre, banner,
          by rw [List.cons_append, ← hcons], hban, ?_⟩
        intro l2 hl2
        rcases List.mem_cons.mp hl2 with rfl | hl2
        · exact hb
        · exact hpre l2 hl2

/-- Claim C9: `reset` first writes exactly the two raw bytes `0x12 0x1B`,
then consumes successive lines via `read_line`; it returns precisely when
the stream contains a line that strips to `TERMINAL-Mode`, consuming every
line up to and including that one, and on a stream with no such line the
polling loop never finds the banner (it would block without bound). -/
theorem claim_C9_reset (lines : List (List Char)) :
    reset_write_bytes = [0x12, 0x1b] ∧
    (reset_loop lines = none ↔ ∀ l ∈ lines, strip l ≠ terminal_banner) ∧
    (∀ consumed remaining, reset_loop lines = some (consumed, remaining) →
      lines = consumed ++ remaining ∧
      ∃ pre banner, consumed = pre ++ [banner] ∧ strip banner = terminal_banner ∧
        ∀ l ∈ pre, strip l ≠ terminal_banner) :=
  ⟨rfl, reset_loop_none_iff lines, reset_loop_some lines⟩

/-- Witness for C9: a stream delivering `"junk"`, `" TERMINAL-Mode "`,
`"rest"` makes `reset` consume the first two lines (the second strips to the
banner) and leave `"rest"` undelivered. -/
theorem claim_C9_witness :
    ([ "junk".toList, " TERMINAL-Mode ".toList, "rest".toList ] : List (List Char)) =
      ["junk".toList, " TERMINAL-Mode ".toList] ++ ["rest".toList] ∧
    ∃ pre banner,
      (["junk".toList, " TERMINAL-Mode ".toList] : List (List Char)) = pre ++ [banner] ∧
      strip banner = terminal_banner ∧
      ∀ l ∈ pre, strip l ≠ terminal_banner :=
  (claim_C9_reset ["junk".toList, " TERMINAL-Mode ".toList, "rest".toList]).2.2
    ["junk".toList, " TERMINAL-Mode ".toList] ["rest".toList] (by decide)

end VcMini
